import Mathlib

/-!
Verification of the GPUtil library (GPUtil/GPUtil.py): a shallow embedding
of its data model and operations, with theorems about the availability
filter, the selector's ordering and truncation, the retry wrapper and the
parsing layer.  Python floats are modelled as exact rationals extended with
NaN and the two infinities; Python exceptions are modelled with `Except`.
-/

namespace GPUtil

attribute [local semireducible] Rat.add Rat.sub Rat.mul Rat.inv Rat.ofScientific

/-- Python exceptions that the embedded code can raise. -/
inductive PyErr where
  | valueError (msg : String)
  | zeroDivisionError
  | keyError (key : String)
  | indexError
  | runtimeError (msg : String)
  | unboundLocal (name : String)
  deriving DecidableEq, Repr

/-- Model of a Python float: NaN, the two infinities, or an exact rational
value (rounding to binary is not modelled; no claim depends on it). -/
inductive PyFloat where
  | nan
  | inf
  | ninf
  | fin (q : ℚ)
  deriving DecidableEq, Repr

namespace PyFloat

/-- The `math.isnan` predicate. -/
def isNan : PyFloat → Bool
  | .nan => true
  | _ => false

/-- Python `<` on floats: false whenever either side is NaN. -/
def lt : PyFloat → PyFloat → Bool
  | .nan, _ => false
  | _, .nan => false
  | .ninf, .ninf => false
  | .ninf, _ => true
  | .inf, _ => false
  | .fin _, .ninf => false
  | .fin _, .inf => true
  | .fin a, .fin b => a < b

/-- Python `<=` on floats: false whenever either side is NaN. -/
def le : PyFloat → PyFloat → Bool
  | .nan, _ => false
  | _, .nan => false
  | .ninf, _ => true
  | .inf, .inf => true
  | .inf, _ => false
  | .fin _, .ninf => false
  | .fin _, .inf => true
  | .fin a, .fin b => a ≤ b

/-- Python `>=` on floats. -/
def ge (x y : PyFloat) : Bool := le y x

/-- Python `==` on floats: NaN compares unequal to everything, itself
included. -/
def beq : PyFloat → PyFloat → Bool
  | .nan, _ => false
  | _, .nan => false
  | .inf, .inf => true
  | .ninf, .ninf => true
  | .fin a, .fin b => a == b
  | _, _ => false

/-- Python float division.  Dividing by (exact) zero raises
`ZeroDivisionError`; otherwise NaN propagates and infinities follow the
IEEE rules (signed zero is not modelled). -/
def div : PyFloat → PyFloat → Except PyErr PyFloat
  | _, .fin 0 => .error .zeroDivisionError
  | .nan, _ => .ok .nan
  | _, .nan => .ok .nan
  | .inf, .inf => .ok .nan
  | .inf, .ninf => .ok .nan
  | .ninf, .inf => .ok .nan
  | .ninf, .ninf => .ok .nan
  | .inf, .fin b => .ok (if 0 < b then .inf else .ninf)
  | .ninf, .fin b => .ok (if 0 < b then .ninf else .inf)
  | .fin _, .inf => .ok (.fin 0)
  | .fin _, .ninf => .ok (.fin 0)
  | .fin a, .fin b => .ok (.fin (a / b))

end PyFloat

/-- Python `x in xs` for float lists, via `==` (the CPython identity
shortcut for NaN elements is not modelled; no claim exercises it). -/
def pyMemF (x : PyFloat) (xs : List PyFloat) : Bool :=
  xs.any fun e => PyFloat.beq e x

/-- Python `x in xs` for string lists. -/
def pyMemS (x : String) (xs : List String) : Bool :=
  xs.any fun e => e == x

/-- The GPU record class (`GPUtil.GPU.__slots__`).  `id` is kept as a
`PyFloat` because Python is untyped and the selector's sort key applies
`math.isnan` to it; the parser always stores an integral value there. -/
structure GPU where
  id : PyFloat
  uuid : String
  load : PyFloat
  memoryUtil : PyFloat
  memoryTotal : PyFloat
  memoryUsed : PyFloat
  memoryFree : PyFloat
  driver : String
  name : String
  serial : String
  display_mode : String
  display_active : String
  temperature : PyFloat
  vbios_version : String
  power_draw : PyFloat
  power_limit : PyFloat
  core_clock : Int
  memory_clock : Int
  compute_mode : String
  pci_bus : Int
  deriving DecidableEq, Repr

/-- The constructor `GPU.__init__`: stores every argument and computes
`memoryUtil = float(memoryUsed) / float(memoryTotal)`, which raises
`ZeroDivisionError` when `memoryTotal` is exactly zero. -/
def GPU.init (ID : PyFloat) (uuid : String) (load : PyFloat)
    (memoryTotal memoryUsed memoryFree : PyFloat)
    (driver gpu_name serial display_mode display_active : String)
    (temp_gpu : PyFloat) (core_clock memory_clock : Int)
    (vbios_version : String) (power_draw power_limit : PyFloat)
    (compute_mode : String) (pci_bus : Int) : Except PyErr GPU := do
  let memoryUtil ← PyFloat.div memoryUsed memoryTotal
  return { id := ID, uuid := uuid, load := load, memoryUtil := memoryUtil,
           memoryTotal := memoryTotal, memoryUsed := memoryUsed,
           memoryFree := memoryFree, driver := driver, name := gpu_name,
           serial := serial, display_mode := display_mode,
           display_active := display_active, temperature := temp_gpu,
           vbios_version := vbios_version, power_draw := power_draw,
           power_limit := power_limit, core_clock := core_clock,
           memory_clock := memory_clock, compute_mode := compute_mode,
           pci_bus := pci_bus }

/-- Leading/trailing-whitespace stripping applied by the Python numeric
casts (`str.strip` semantics, restricted to ASCII whitespace). -/
def stripChars (cs : List Char) : List Char :=
  ((cs.dropWhile Char.isWhitespace).reverse.dropWhile Char.isWhitespace).reverse

/-- Python `s.split("\n")` (the POSIX `os.linesep` separator): every
occurrence of the newline separates two pieces, so a trailing newline
produces a final empty piece and the empty string yields one empty
piece. -/
def splitLines : List Char → List (List Char)
  | [] => [[]]
  | c :: cs =>
    if c = '\n' then [] :: splitLines cs
    else
      match splitLines cs with
      | t :: ts => (c :: t) :: ts
      | [] => [[c]]

/-- Python `s.split(", ")`, the field separator of the CSV telemetry
output: scans left to right, splitting at each non-overlapping
occurrence of comma-space. -/
def splitCommaSpace : List Char → List (List Char)
  | [] => [[]]
  | [c] => [[c]]
  | c :: d :: cs =>
    if c = ',' && d = ' ' then [] :: splitCommaSpace cs
    else
      match splitCommaSpace (d :: cs) with
      | t :: ts => (c :: t) :: ts
      | [] => [[c]]

/-- Python `s.split()` with no separator: maximal runs of
non-whitespace, empty tokens dropped.  The accumulator holds the
current token reversed. -/
def splitWsAux : List Char → List Char → List (List Char)
  | [], acc => if acc.isEmpty then [] else [acc.reverse]
  | c :: cs, acc =>
    if c.isWhitespace then
      if acc.isEmpty then splitWsAux cs []
      else acc.reverse :: splitWsAux cs []
    else splitWsAux cs (c :: acc)

/-- Numeric value of a list of decimal digit characters. -/
def digitsToNat (ds : List Char) : ℕ :=
  ds.foldl (fun acc c => 10 * acc + (c.toNat - 48)) 0

/-- Mantissa-and-exponent part of a Python float literal (after the
optional sign): `digits [. digits] [(e|E) [sign] digits]`, with at least
one mantissa digit.  Returns the exact rational value. -/
def parseDecimal (cs : List Char) : Option ℚ :=
  let (ip, rest) := cs.span Char.isDigit
  let (fp, rest2) :=
    match rest with
    | '.' :: t => t.span Char.isDigit
    | _ => ([], rest)
  if ip.isEmpty && fp.isEmpty then none
  else
    let mant : ℚ := (digitsToNat ip : ℚ) + (digitsToNat fp : ℚ) / (10 ^ fp.length : ℚ)
    match rest2 with
    | [] => some mant
    | e :: t =>
      if e = 'e' || e = 'E' then
        let (negExp, t2) :=
          match t with
          | '+' :: u => (false, u)
          | '-' :: u => (true, u)
          | _ => (false, t)
        let (ed, t3) := t2.span Char.isDigit
        if ed.isEmpty || !t3.isEmpty then none
        else some (if negExp then mant / 10 ^ digitsToNat ed else mant * 10 ^ digitsToNat ed)
      else none

/-- Model of the Python builtin `float` applied to a string: strips
whitespace, accepts an optional sign followed by `inf`, `infinity` or
`nan` (case-insensitive) or a decimal literal, and raises `ValueError`
otherwise.  (Digit-group underscores and non-ASCII digits are not
modelled.) -/
def pyFloatOfString (s : String) : Except PyErr PyFloat :=
  let cs := stripChars s.toList
  let (neg, body) :=
    match cs with
    | '+' :: t => (false, t)
    | '-' :: t => (true, t)
    | _ => (false, cs)
  let low := body.map Char.toLower
  if low = "inf".toList || low = "infinity".toList then
    .ok (if neg then .ninf else .inf)
  else if low = "nan".toList then .ok .nan
  else
    match parseDecimal body with
    | some q => .ok (.fin (if neg then -q else q))
    | none => .error (.valueError s)

/-- `safeFloatCast`: `float(strNumber)` under `try`/`except ValueError`,
returning NaN when the cast fails.  (On a string argument the builtin
raises only `ValueError`, so the bare value of the `except` branch is
total.) -/
def safeFloatCast (strNumber : String) : PyFloat :=
  match pyFloatOfString strNumber with
  | .ok number => number
  | .error _ => .nan

/-- Model of the Python builtin `int` applied to a string: strips
whitespace, optional sign, then one or more decimal digits and nothing
else; raises `ValueError` otherwise. -/
def pyIntOfString (s : String) : Except PyErr Int :=
  let cs := stripChars s.toList
  let (neg, body) :=
    match cs with
    | '+' :: t => (false, t)
    | '-' :: t => (true, t)
    | _ => (false, cs)
  let (ds, rest) := body.span Char.isDigit
  if ds.isEmpty || !rest.isEmpty then .error (.valueError s)
  else
    let n : Int := digitsToNat ds
    .ok (if neg then -n else n)

/-- Hexadecimal digit test. -/
def isHexDigit (c : Char) : Bool :=
  c.isDigit || ('a' ≤ c && c ≤ 'f') || ('A' ≤ c && c ≤ 'F')

/-- Value of one hexadecimal digit character. -/
def hexVal (c : Char) : ℕ :=
  if c.isDigit then c.toNat - 48
  else if 'a' ≤ c && c ≤ 'f' then c.toNat - 87
  else c.toNat - 55

/-- Numeric value of a list of hexadecimal digit characters. -/
def hexToNat (ds : List Char) : ℕ :=
  ds.foldl (fun acc c => 16 * acc + hexVal c) 0

/-- Model of the Python builtin `int(s, 16)`: strips whitespace, optional
sign, optional `0x`/`0X` prefix, then one or more hex digits and nothing
else; raises `ValueError` otherwise. -/
def pyIntOfStringHex (s : String) : Except PyErr Int :=
  let cs := stripChars s.toList
  let (neg, body) :=
    match cs with
    | '+' :: t => (false, t)
    | '-' :: t => (true, t)
    | _ => (false, cs)
  let body2 :=
    match body with
    | '0' :: 'x' :: t => t
    | '0' :: 'X' :: t => t
    | _ => body
  let (ds, rest) := body2.span isHexDigit
  if ds.isEmpty || !rest.isEmpty then .error (.valueError s)
  else
    let n : Int := hexToNat ds
    .ok (if neg then -n else n)

/-- Python list indexing `l[n]` for `n ≥ 0`: raises `IndexError` when out
of range. -/
def pyGetS (l : List String) (n : ℕ) : Except PyErr String :=
  match l.get? n with
  | some v => .ok v
  | none => .error .indexError

/-- Body of the per-line loop of `getGPUs` (GPUtil.py lines 185-230):
splits one line of `nvidia-smi` output on `", "`, parses the 19 fields
positionally and constructs the `GPU` record. -/
def parseGpuLine (line : String) : Except PyErr GPU := do
  let vals := (splitCommaSpace line.toList).map fun cs => String.mk cs
  let deviceIds ← pyIntOfString (← pyGetS vals 0)
  let uuid ← pyGetS vals 1
  let gpuUtil ← PyFloat.div (safeFloatCast (← pyGetS vals 2)) (.fin 100)
  let memTotal := safeFloatCast (← pyGetS vals 3)
  let memUsed := safeFloatCast (← pyGetS vals 4)
  let memFree := safeFloatCast (← pyGetS vals 5)
  let driver ← pyGetS vals 6
  let gpu_name ← pyGetS vals 7
  let serial ← pyGetS vals 8
  let display_active ← pyGetS vals 9
  let display_mode ← pyGetS vals 10
  let temp_gpu := safeFloatCast (← pyGetS vals 11)
  let core_clock ← pyIntOfString (← pyGetS vals 12)
  let memory_clock ← pyIntOfString (← pyGetS vals 13)
  let vbios_version ← pyGetS vals 14
  let power_draw := safeFloatCast (← pyGetS vals 15)
  let power_limit := safeFloatCast (← pyGetS vals 16)
  let compute_mode ← pyGetS vals 17
  let pci_bus ← pyIntOfStringHex (← pyGetS vals 18)
  GPU.init (.fin deviceIds) uuid gpuUtil memTotal memUsed memFree driver
    gpu_name serial display_mode display_active temp_gpu core_clock
    memory_clock vbios_version power_draw power_limit compute_mode pci_bus

/-- Sequential parsing of the retained output lines; the first
parse/constructor exception aborts the whole call (the loop body of
`getGPUs` is outside its `try`). -/
def parseGpuLines : List String → Except PyErr (List GPU)
  | [] => .ok []
  | l :: ls => do
    let g ← parseGpuLine l
    let gs ← parseGpuLines ls
    .ok (g :: gs)

/-- `getGPUs`, with the external `subprocess.run` made explicit:
`runOutput = none` models the invocation raising (binary missing, I/O
failure) — the bare `except` returns `[]`; `runOutput = some out` models
captured stdout, split on the platform line terminator (POSIX `"\n"`),
with the final line dropped (`numDevices = len(lines) - 1`). -/
def getGPUs (runOutput : Option String) : Except PyErr (List GPU) :=
  match runOutput with
  | none => .ok []
  | some output =>
    let lines := (splitLines output.toList).map fun cs => String.mk cs
    parseGpuLines (lines.take (lines.length - 1))

/-- The GPU process record class (`GPUtil.GPUProcess.__slots__`). -/
structure GPUProcess where
  pid : Int
  processName : String
  gpuId : PyFloat
  gpuUuid : String
  gpuName : String
  usedMemory : PyFloat
  uid : Int
  uname : String
  deriving DecidableEq, Repr

/-- Owner lookup of one pid (GPUtil.py lines 274-283): `ps` output is
split on whitespace and unpacked into `uid, uname` with `uid = int(uid)`;
any failure inside the `try` (spawn error, wrong token count, non-numeric
uid) falls to the `except` branch yielding `(-1, "")`.  `out = none`
models the `ps` invocation raising. -/
def parsePsOutput (out : Option String) : Int × String :=
  match out with
  | none => (-1, "")
  | some s =>
    match splitWsAux s.toList [] with
    | [u, name] =>
      match pyIntOfString (String.mk u) with
      | .ok uid => (uid, String.mk name)
      | .error _ => (-1, "")
    | _ => (-1, "")

/-- Body of the per-line loop of `getGPUProcesses` (GPUtil.py lines
259-289).  `uuidMap` is the module-level `gpuUuidToIdMap` dict (values
are `Option` so that the source's `if gpuId is None` test is
representable); `gpuUuidToIdMap[gpuUuid]` raises `KeyError` when the uuid
is absent.  `psOut` injects the external `ps` call. -/
def parseProcessLine (uuidMap : List (String × Option PyFloat))
    (psOut : Int → Option String) (line : String) :
    Except PyErr GPUProcess := do
  let vals := (splitCommaSpace line.toList).map fun cs => String.mk cs
  let pid ← pyIntOfString (← pyGetS vals 0)
  let processName ← pyGetS vals 1
  let gpuUuid ← pyGetS vals 2
  let gpuName ← pyGetS vals 3
  let usedMemory := safeFloatCast (← pyGetS vals 4)
  let looked ←
    match uuidMap.lookup gpuUuid with
    | none => Except.error (PyErr.keyError gpuUuid)
    | some v => Except.ok v
  let gpuId :=
    match looked with
    | none => PyFloat.fin (-1)
    | some x => x
  let (uid, uname) := parsePsOutput (psOut pid)
  return { pid := pid, processName := processName, gpuId := gpuId,
           gpuUuid := gpuUuid, gpuName := gpuName,
           usedMemory := usedMemory, uid := uid, uname := uname }

/-- Sequential parsing of the retained process lines; a raised exception
aborts the whole call. -/
def parseProcessLines (uuidMap : List (String × Option PyFloat))
    (psOut : Int → Option String) :
    List String → Except PyErr (List GPUProcess)
  | [] => .ok []
  | l :: ls => do
    let p ← parseProcessLine uuidMap psOut l
    let ps ← parseProcessLines uuidMap psOut ls
    .ok (p :: ps)

/-- `getGPUProcesses` with the external invocation made explicit, like
`getGPUs`. -/
def getGPUProcesses (uuidMap : List (String × Option PyFloat))
    (runOutput : Option String) (psOut : Int → Option String) :
    Except PyErr (List GPUProcess) :=
  match runOutput with
  | none => .ok []
  | some output =>
    let lines := (splitLines output.toList).map fun cs => String.mk cs
    parseProcessLines uuidMap psOut (lines.take (lines.length - 1))

/-- The availability condition of `getAvailability` for one GPU
(GPUtil.py lines 374-384), verbatim from the list comprehension's guard. -/
def gpuAvailable (maxLoad maxMemory memoryFree : PyFloat)
    (includeNan : Bool) (excludeID : List PyFloat)
    (excludeUUID excludeComputeMode : List String) (gpu : GPU) : Bool :=
  PyFloat.ge gpu.memoryFree memoryFree
    && (PyFloat.lt gpu.load maxLoad || (includeNan && gpu.load.isNan))
    && (PyFloat.lt gpu.memoryUtil maxMemory
        || (includeNan && gpu.memoryUtil.isNan))
    && (!pyMemF gpu.id excludeID && !pyMemS gpu.uuid excludeUUID
        && !pyMemS gpu.compute_mode excludeComputeMode)

/-- `getAvailability`: one `1`/`0` entry per input GPU, in order. -/
def getAvailability (GPUs : List GPU) (maxLoad maxMemory memoryFree : PyFloat)
    (includeNan : Bool) (excludeID : List PyFloat)
    (excludeUUID excludeComputeMode : List String) : List ℕ :=
  GPUs.map fun gpu =>
    if gpuAvailable maxLoad maxMemory memoryFree includeNan excludeID
        excludeUUID excludeComputeMode gpu then 1 else 0

/-- Python list indexing for GPU lists. -/
def pyGetG (l : List GPU) (n : ℕ) : Except PyErr GPU :=
  match l.get? n with
  | some v => .ok v
  | none => .error .indexError

/-- The survivor extraction of `getAvailable` (GPUtil.py lines 327-331):
indices where the availability mask is `1`, then the GPUs at those
indices. -/
def availableGpus (gpus : List GPU) (maxLoad maxMemory memoryFree : PyFloat)
    (includeNan : Bool) (excludeID : List PyFloat)
    (excludeUUID excludeComputeMode : List String) : List GPU :=
  let avail := getAvailability gpus maxLoad maxMemory memoryFree includeNan
    excludeID excludeUUID excludeComputeMode
  let idxs := (List.range avail.length).filter fun i => avail.getD i 0 == 1
  idxs.filterMap gpus.get?

/-- Sort key of `order="first"`: `float("inf") if isnan(x.id) else x.id`. -/
def sortKeyFirst (x : GPU) : PyFloat := if x.id.isNan then .inf else x.id

/-- Sort key of `order="last"`: `float("-inf") if isnan(x.id) else x.id`. -/
def sortKeyLast (x : GPU) : PyFloat := if x.id.isNan then .ninf else x.id

/-- Sort key of `order="load"`. -/
def sortKeyLoad (x : GPU) : PyFloat := if x.load.isNan then .inf else x.load

/-- Sort key of `order="memory"`. -/
def sortKeyMemory (x : GPU) : PyFloat :=
  if x.memoryUtil.isNan then .inf else x.memoryUtil

/-- Ascending key order, the relation realized by Python's stable
`list.sort(key=k, reverse=False)`. -/
abbrev ascRel (k : GPU → PyFloat) (a b : GPU) : Prop :=
  PyFloat.le (k a) (k b) = true

/-- Descending key order with ties keeping original positions, the
relation realized by Python's stable `list.sort(key=k, reverse=True)`. -/
abbrev descRel (k : GPU → PyFloat) (a b : GPU) : Prop :=
  PyFloat.le (k b) (k a) = true

/-- The `order` dispatch of `getAvailable` (GPUtil.py lines 334-352).
Python's stable sort is modelled by `List.insertionSort`, which places
equal-key elements in original order exactly as timsort does; `sample`
injects the impure `random.sample(range(0, len(GPUs)), len(GPUs))` call
of the `"random"` branch; an unrecognized order string falls through all
branches and leaves the list untouched. -/
def sortGpus (order : String) (sample : ℕ → List ℕ) (gpus : List GPU) :
    Except PyErr (List GPU) :=
  if order = "first" then .ok (gpus.insertionSort (ascRel sortKeyFirst))
  else if order = "last" then .ok (gpus.insertionSort (descRel sortKeyLast))
  else if order = "random" then (sample gpus.length).mapM (pyGetG gpus)
  else if order = "load" then .ok (gpus.insertionSort (ascRel sortKeyLoad))
  else if order = "memory" then .ok (gpus.insertionSort (ascRel sortKeyMemory))
  else .ok gpus

/-- `getAvailable`, parameterized over the snapshot `gpus` that the
source fetches itself via `getGPUs()`: filter, sort per `order`, truncate
with `GPUs[0 : min(limit, len(GPUs))]` and extract the ids. -/
def getAvailable (gpus : List GPU) (order : String) (limit : ℕ)
    (maxLoad maxMemory memoryFree : PyFloat) (includeNan : Bool)
    (excludeID : List PyFloat) (excludeUUID excludeComputeMode : List String)
    (sample : ℕ → List ℕ) : Except PyErr (List PyFloat) := do
  let survivors := availableGpus gpus maxLoad maxMemory memoryFree includeNan
    excludeID excludeUUID excludeComputeMode
  let sorted ← sortGpus order sample survivors
  let trunc := sorted.take (min limit sorted.length)
  return trunc.map fun gpu => gpu.id

/-- Observable outcome of one `getFirstAvailable` call: how many times
the selector (`getAvailable` with `limit=1`) ran, how many times
`time.sleep(interval)` ran, and the returned value or raised exception. -/
structure RetryResult where
  calls : ℕ
  sleeps : ℕ
  outcome : Except PyErr (List PyFloat)
  deriving Repr

/-- The `for i in range(attempts)` loop of `getFirstAvailable`
(GPUtil.py lines 402-429), compiled with the remaining iteration count
`fuel = attempts - i` as the structural argument: `available` holds the
last selector result (`none` while still unassigned); a non-empty result
breaks out; a sleep happens after an empty attempt unless
`i == attempts - 1`. -/
def retryLoop (selector : ℕ → List PyFloat) (attempts : ℕ) :
    ℕ → ℕ → ℕ → ℕ → Option (List PyFloat) → ℕ × ℕ × Option (List PyFloat)
  | 0, _, calls, sleeps, available => (calls, sleeps, available)
  | fuel + 1, i, calls, sleeps, _ =>
    let a := selector i
    if !a.isEmpty then (calls + 1, sleeps, some a)
    else
      retryLoop selector attempts fuel (i + 1) (calls + 1)
        (if i ≠ attempts - 1 then sleeps + 1 else sleeps) (some a)

/-- `getFirstAvailable` over an injected selector (the inner
`getAvailable` call, impure because each attempt takes a fresh
snapshot).  After the loop, `if not available` on a still-unbound local
raises `UnboundLocalError`; on an empty final result it raises the
`RuntimeError` built from `attempts` and `interval`. -/
def getFirstAvailable (selector : ℕ → List PyFloat)
    (attempts interval : ℕ) : RetryResult :=
  let r := retryLoop selector attempts attempts 0 0 0 none
  match r.2.2 with
  | none => ⟨r.1, r.2.1, .error (.unboundLocal "available")⟩
  | some a =>
    if a.isEmpty then
      ⟨r.1, r.2.1, .error (.runtimeError
        ("Could not find an available GPU after " ++ toString attempts
          ++ " attempts with " ++ toString interval ++ " seconds interval."))⟩
    else ⟨r.1, r.2.1, .ok a⟩

/-! ### Test fixtures -/

/-- Test fixture: a GPU record with the given id, uuid, load, memory
utilization, free memory and compute mode; the remaining fields are
fixed innocuous values. -/
def mkGpu (i : PyFloat) (uuid : String) (load util free : PyFloat)
    (cm : String) : GPU :=
  { id := i, uuid := uuid, load := load, memoryUtil := util,
    memoryTotal := .fin 8, memoryUsed := .fin 2, memoryFree := free,
    driver := "535.1", name := "TestGPU", serial := "sn", display_mode := "On",
    display_active := "On", temperature := .fin 40, vbios_version := "vb",
    power_draw := .fin 50, power_limit := .fin 250, core_clock := 1000,
    memory_clock := 5000, compute_mode := cm, pci_bus := 1 }

/-- Test fixture: an idle GPU (load 0, utilization 0, free memory 1,
default compute mode) that passes the default availability filter. -/
def availGpu (i : PyFloat) (uuid : String) : GPU :=
  mkGpu i uuid (.fin 0) (.fin 0) (.fin 1) "Default"

/-- Test fixture: three available GPUs with ids `[2, 0, 1]`. -/
def ex201 : List GPU :=
  [availGpu (.fin 2) "u2", availGpu (.fin 0) "u0", availGpu (.fin 1) "u1"]

/-- Test fixture: a well-formed 19-field telemetry line. -/
def wellFormedLine : String :=
  "0, GPU-abc, 50, 8000, 2000, 6000, 535.1, RTX, 123, Enabled, Enabled, "
    ++ "45, 1500, 7000, 90.1, 100.5, 250.0, Default, 1a"

/-- Test fixture: the record that `wellFormedLine` parses to. -/
def parsedGpu : GPU :=
  { id := .fin 0, uuid := "GPU-abc", load := .fin (1/2),
    memoryUtil := .fin (1/4), memoryTotal := .fin 8000,
    memoryUsed := .fin 2000, memoryFree := .fin 6000, driver := "535.1",
    name := "RTX", serial := "123", display_mode := "Enabled",
    display_active := "Enabled", temperature := .fin 45,
    vbios_version := "90.1", power_draw := .fin (201/2),
    power_limit := .fin 250, core_clock := 1500, memory_clock := 7000,
    compute_mode := "Default", pci_bus := 26 }

/-- Test fixture: a sample function for the unused `"random"` branch. -/
def noSample : ℕ → List ℕ := fun _ => []

/-! ### Supporting lemmas -/

theorem except_bind_ok {ε α β : Type} (x : Except ε α) (f : α → Except ε β)
    (b : β) : (x >>= f = .ok b) ↔ ∃ a, x = .ok a ∧ f a = .ok b := by
  cases x <;> simp [Bind.bind, Except.bind]

theorem PyFloat.le_trans {x y z : PyFloat} (h1 : le x y = true)
    (h2 : le y z = true) : le x z = true := by
  cases x <;> cases y <;> cases z <;> simp_all [le]
  exact h1.trans h2

theorem PyFloat.le_total_of_ne_nan {x y : PyFloat} (hx : x ≠ .nan)
    (hy : y ≠ .nan) : le x y = true ∨ le y x = true := by
  cases x <;> cases y <;> simp_all [le]
  exact le_total _ _

theorem PyFloat.le_inf_iff {y : PyFloat} (hy : y ≠ .nan) :
    le .inf y = true ↔ y = .inf := by
  cases y <;> simp_all [le]

theorem PyFloat.le_ninf_iff {y : PyFloat} (hy : y ≠ .nan) :
    le y .ninf = true ↔ y = .ninf := by
  cases y <;> simp_all [le]

theorem PyFloat.isNan_iff {x : PyFloat} : isNan x = true ↔ x = .nan := by
  cases x <;> simp [isNan]

theorem sortKeyFirst_ne_nan (x : GPU) : sortKeyFirst x ≠ .nan := by
  cases hx : x.id <;> simp [sortKeyFirst, PyFloat.isNan, hx]

theorem sortKeyLast_ne_nan (x : GPU) : sortKeyLast x ≠ .nan := by
  cases hx : x.id <;> simp [sortKeyLast, PyFloat.isNan, hx]

theorem sortKeyLoad_ne_nan (x : GPU) : sortKeyLoad x ≠ .nan := by
  cases hx : x.load <;> simp [sortKeyLoad, PyFloat.isNan, hx]

theorem sortKeyMemory_ne_nan (x : GPU) : sortKeyMemory x ≠ .nan := by
  cases hx : x.memoryUtil <;> simp [sortKeyMemory, PyFloat.isNan, hx]

theorem ascRel_total (k : GPU → PyFloat) (hk : ∀ x, k x ≠ .nan)
    (a b : GPU) : ascRel k a b ∨ ascRel k b a :=
  PyFloat.le_total_of_ne_nan (hk a) (hk b)

theorem descRel_total (k : GPU → PyFloat) (hk : ∀ x, k x ≠ .nan)
    (a b : GPU) : descRel k a b ∨ descRel k b a :=
  PyFloat.le_total_of_ne_nan (hk b) (hk a)

theorem ascRel_trans (k : GPU → PyFloat) (a b c : GPU) (h1 : ascRel k a b)
    (h2 : ascRel k b c) : ascRel k a c :=
  PyFloat.le_trans h1 h2

theorem descRel_trans (k : GPU → PyFloat) (a b c : GPU) (h1 : descRel k a b)
    (h2 : descRel k b c) : descRel k a c :=
  PyFloat.le_trans h2 h1

theorem sortGpus_first (sample : ℕ → List ℕ) (gpus : List GPU) :
    sortGpus "first" sample gpus
      = .ok (gpus.insertionSort (ascRel sortKeyFirst)) := rfl

theorem sortGpus_last (sample : ℕ → List ℕ) (gpus : List GPU) :
    sortGpus "last" sample gpus
      = .ok (gpus.insertionSort (descRel sortKeyLast)) := rfl

theorem sortGpus_ok_of_ne_random (order : String) (sample : ℕ → List ℕ)
    (gpus : List GPU) (h : order ≠ "random") :
    ∃ l, sortGpus order sample gpus = .ok l := by
  unfold sortGpus
  split_ifs
  all_goals exact ⟨_, rfl⟩

theorem getAvailable_eq_of_sortGpus {gpus : List GPU} {order : String}
    {limit : ℕ} {maxLoad maxMemory memoryFree : PyFloat} {includeNan : Bool}
    {excludeID : List PyFloat} {excludeUUID excludeComputeMode : List String}
    {sample : ℕ → List ℕ} {l : List GPU}
    (h : sortGpus order sample (availableGpus gpus maxLoad maxMemory
      memoryFree includeNan excludeID excludeUUID excludeComputeMode) = .ok l) :
    getAvailable gpus order limit maxLoad maxMemory memoryFree includeNan
      excludeID excludeUUID excludeComputeMode sample
      = .ok ((l.take (min limit l.length)).map fun gpu => gpu.id) := by
  simp only [getAvailable, h]
  rfl

theorem retryLoop_empty (selector : ℕ → List PyFloat) (attempts : ℕ)
    (hsel : ∀ j, selector j = []) :
    ∀ (fuel i calls sleeps : ℕ) (avail : Option (List PyFloat)),
      i + fuel = attempts → 0 < fuel →
      retryLoop selector attempts fuel i calls sleeps avail
        = (calls + fuel, sleeps + (fuel - 1), some []) := by
  intro fuel
  induction fuel with
  | zero => intro i calls sleeps avail _ h2; omega
  | succ f ih =>
    intro i calls sleeps avail h1 _
    rw [retryLoop]
    simp only [hsel i, List.isEmpty_nil, Bool.not_true, Bool.false_eq_true,
      if_false]
    cases f with
    | zero =>
      have hi : i = attempts - 1 := by omega
      rw [retryLoop]
      simp [hi]
    | succ f' =>
      have hne : i ≠ attempts - 1 := by omega
      rw [ih (i + 1) (calls + 1) _ (some []) (by omega) (by omega)]
      simp [hne]
      omega

theorem retryLoop_success (selector : ℕ → List PyFloat) (attempts k : ℕ)
    (hne : selector k ≠ []) (hprev : ∀ j, j < k → selector j = []) :
    ∀ (fuel i calls sleeps : ℕ) (avail : Option (List PyFloat)),
      i + fuel = attempts → i ≤ k → k < attempts →
      retryLoop selector attempts fuel i calls sleeps avail
        = (calls + (k - i) + 1, sleeps + (k - i), some (selector k)) := by
  intro fuel
  induction fuel with
  | zero => intro i calls sleeps avail h1 h2 h3; omega
  | succ f ih =>
    intro i calls sleeps avail h1 h2 h3
    rw [retryLoop]
    rcases eq_or_lt_of_le h2 with hik | hik
    · subst hik
      simp [List.isEmpty_iff, hne]
    · have hie : selector i = [] := hprev i hik
      simp only [hie, List.isEmpty_nil, Bool.not_true, Bool.false_eq_true,
        if_false]
      have hne2 : i ≠ attempts - 1 := by omega
      rw [ih (i + 1) (calls + 1) _ (some []) (by omega) (by omega) h3]
      simp [hne2]
      omega

theorem GPU.init_ok {ID : PyFloat} {uuid : String} {load : PyFloat}
    {memoryTotal memoryUsed memoryFree : PyFloat}
    {driver gpu_name serial display_mode display_active : String}
    {temp_gpu : PyFloat} {core_clock memory_clock : Int}
    {vbios_version : String} {power_draw power_limit : PyFloat}
    {compute_mode : String} {pci_bus : Int} {g : GPU}
    (h : GPU.init ID uuid load memoryTotal memoryUsed memoryFree driver
      gpu_name serial display_mode display_active temp_gpu core_clock
      memory_clock vbios_version power_draw power_limit compute_mode
      pci_bus = .ok g) :
    PyFloat.div memoryUsed memoryTotal = .ok g.memoryUtil
    ∧ g.memoryTotal = memoryTotal ∧ g.memoryUsed = memoryUsed := by
  unfold GPU.init at h
  rw [except_bind_ok] at h
  obtain ⟨v, hv, hg⟩ := h
  simp only [pure, Except.pure, Except.ok.injEq] at hg
  subst hg
  exact ⟨hv, rfl, rfl⟩

theorem div_fin_zero (x : PyFloat) :
    PyFloat.div x (.fin 0) = .error .zeroDivisionError := by
  cases x <;> rfl

theorem list_index_filterMap {α : Type} (p : α → Bool) (l : List α) :
    ((List.range (l.map fun g => if p g then (1:ℕ) else 0).length).filter
        fun i => ((l.map fun g => if p g then (1:ℕ) else 0).getD i 0)
          == 1).filterMap l.get?
      = l.filter p := by
  induction l with
  | nil => rfl
  | cons g gs ih =>
    simp only [List.map_cons, List.length_cons, List.length_map,
      List.range_succ_eq_map, List.filter_cons, List.getD_cons_zero,
      List.filter_map, List.filterMap_cons]
    have hpred : ((fun i => (((if p g = true then (1:ℕ) else 0) ::
        List.map (fun x => if p x = true then (1:ℕ) else 0) gs).getD i 0
          == 1)) ∘ Nat.succ)
        = fun i => ((List.map (fun x => if p x = true then (1:ℕ) else 0)
            gs).getD i 0 == 1) := by
      funext i
      simp [Function.comp, List.getD_cons_succ]
    rw [hpred]
    have hmap : ∀ is : List ℕ,
        List.filterMap (g :: gs).get? (is.map Nat.succ)
          = List.filterMap gs.get? is := by
      intro is
      rw [List.filterMap_map]
      rfl
    simp only [List.length_map] at ih
    by_cases hp : p g
    · rw [if_pos (by simp [hp]),
        List.filterMap_cons_some (show (g :: gs).get? 0 = some g from rfl),
        hmap, ih, if_pos hp]
    · rw [if_neg (by simp [hp]), hmap, ih, if_neg (by simp [hp])]

theorem availableGpus_eq_filter (gpus : List GPU)
    (maxLoad maxMemory memoryFree : PyFloat) (includeNan : Bool)
    (excludeID : List PyFloat)
    (excludeUUID excludeComputeMode : List String) :
    availableGpus gpus maxLoad maxMemory memoryFree includeNan excludeID
        excludeUUID excludeComputeMode
      = gpus.filter (gpuAvailable maxLoad maxMemory memoryFree includeNan
          excludeID excludeUUID excludeComputeMode) := by
  unfold availableGpus getAvailability
  exact list_index_filterMap _ gpus

theorem gpuAvailable_iff (maxLoad maxMemory memoryFree : PyFloat)
    (includeNan : Bool) (excludeID : List PyFloat)
    (excludeUUID excludeComputeMode : List String) (g : GPU) :
    gpuAvailable maxLoad maxMemory memoryFree includeNan excludeID
        excludeUUID excludeComputeMode g = true
      ↔ (PyFloat.ge g.memoryFree memoryFree = true
         ∧ (PyFloat.lt g.load maxLoad = true
            ∨ (includeNan = true ∧ g.load.isNan = true))
         ∧ (PyFloat.lt g.memoryUtil maxMemory = true
            ∨ (includeNan = true ∧ g.memoryUtil.isNan = true))
         ∧ pyMemF g.id excludeID = false
         ∧ pyMemS g.uuid excludeUUID = false
         ∧ pyMemS g.compute_mode excludeComputeMode = false) := by
  unfold gpuAvailable
  simp only [Bool.and_eq_true, Bool.or_eq_true, Bool.not_eq_true']
  tauto

theorem getAvailability_getD (gpus : List GPU)
    (maxLoad maxMemory memoryFree : PyFloat) (includeNan : Bool)
    (excludeID : List PyFloat) (excludeUUID excludeComputeMode : List String)
    (i : ℕ) (h : i < gpus.length) :
    (getAvailability gpus maxLoad maxMemory memoryFree includeNan excludeID
        excludeUUID excludeComputeMode).getD i 0
      = if gpuAvailable maxLoad maxMemory memoryFree includeNan excludeID
          excludeUUID excludeComputeMode gpus[i] then 1 else 0 := by
  unfold getAvailability
  rw [List.getD_eq_getElem _ _ (by simpa using h), List.getElem_map]

/-! ### Claims -/

/-- C1: `getAvailability` returns one `1`/`0` entry per input GPU, in
order, and the entry at index `i` is `1` (available) iff all six
conditions hold: `memoryFree >= memoryFree` threshold, strict
`load < maxLoad` (or NaN load with `includeNan`), strict
`memoryUtil < maxMemory` (or NaN with `includeNan`), id not excluded,
uuid not excluded, compute mode not excluded.  The load comparison being
strict, a GPU whose load equals `maxLoad` exactly is marked
unavailable. -/
theorem getAvailability_mask_spec (gpus : List GPU)
    (maxLoad maxMemory memoryFree : PyFloat) (includeNan : Bool)
    (excludeID : List PyFloat) (excludeUUID excludeComputeMode : List String) :
    (getAvailability gpus maxLoad maxMemory memoryFree includeNan excludeID
        excludeUUID excludeComputeMode).length = gpus.length
    ∧ (∀ i, ∀ h : i < gpus.length,
        (getAvailability gpus maxLoad maxMemory memoryFree includeNan
            excludeID excludeUUID excludeComputeMode).getD i 0 = 1
          ↔ (PyFloat.ge gpus[i].memoryFree memoryFree = true
             ∧ (PyFloat.lt gpus[i].load maxLoad = true
                ∨ (includeNan = true ∧ gpus[i].load.isNan = true))
             ∧ (PyFloat.lt gpus[i].memoryUtil maxMemory = true
                ∨ (includeNan = true ∧ gpus[i].memoryUtil.isNan = true))
             ∧ pyMemF gpus[i].id excludeID = false
             ∧ pyMemS gpus[i].uuid excludeUUID = false
             ∧ pyMemS gpus[i].compute_mode excludeComputeMode = false))
    ∧ (∀ i, ∀ h : i < gpus.length, ∀ q : ℚ,
        gpus[i].load = .fin q → maxLoad = .fin q →
        (getAvailability gpus maxLoad maxMemory memoryFree includeNan
            excludeID excludeUUID excludeComputeMode).getD i 0 = 0) := by
  refine ⟨by simp [getAvailability], ?_, ?_⟩
  · intro i h
    rw [getAvailability_getD gpus maxLoad maxMemory memoryFree includeNan
      excludeID excludeUUID excludeComputeMode i h]
    rw [← gpuAvailable_iff maxLoad maxMemory memoryFree includeNan excludeID
      excludeUUID excludeComputeMode gpus[i]]
    split_ifs with hava <;> simp [hava]
  · intro i h q hload hmax
    rw [getAvailability_getD gpus maxLoad maxMemory memoryFree includeNan
      excludeID excludeUUID excludeComputeMode i h]
    have : gpuAvailable maxLoad maxMemory memoryFree includeNan excludeID
        excludeUUID excludeComputeMode gpus[i] = false := by
      unfold gpuAvailable
      simp [hload, hmax, PyFloat.lt, PyFloat.isNan]
    simp [this]

/-- Witness for C1 at a concrete input: a GPU with load 1/4 under
`maxLoad = 1/2` is marked available; a GPU whose load is exactly the
`maxLoad` threshold is marked unavailable. -/
theorem getAvailability_mask_spec_witness :
    (getAvailability
        [mkGpu (.fin 0) "u0" (.fin (1/4)) (.fin (1/4)) (.fin 100) "Default",
         mkGpu (.fin 1) "u1" (.fin (1/2)) (.fin (1/4)) (.fin 100) "Default"]
        (.fin (1/2)) (.fin (1/2)) (.fin 0) false [] [] []).getD 0 0 = 1
    ∧ (getAvailability
        [mkGpu (.fin 0) "u0" (.fin (1/4)) (.fin (1/4)) (.fin 100) "Default",
         mkGpu (.fin 1) "u1" (.fin (1/2)) (.fin (1/4)) (.fin 100) "Default"]
        (.fin (1/2)) (.fin (1/2)) (.fin 0) false [] [] []).getD 1 0 = 0 := by
  constructor
  · exact ((getAvailability_mask_spec
      [mkGpu (.fin 0) "u0" (.fin (1/4)) (.fin (1/4)) (.fin 100) "Default",
       mkGpu (.fin 1) "u1" (.fin (1/2)) (.fin (1/4)) (.fin 100) "Default"]
      (.fin (1/2)) (.fin (1/2)) (.fin 0) false [] [] []).2.1 0
      (by decide)).mpr (by decide)
  · exact (getAvailability_mask_spec
      [mkGpu (.fin 0) "u0" (.fin (1/4)) (.fin (1/4)) (.fin 100) "Default",
       mkGpu (.fin 1) "u1" (.fin (1/2)) (.fin (1/4)) (.fin 100) "Default"]
      (.fin (1/2)) (.fin (1/2)) (.fin 0) false [] [] []).2.2 1
      (by decide) (1/2) (by decide) (by decide)

/-- C8: `safeFloatCast` is total: when the underlying float cast
succeeds it returns the parsed number, and when the cast raises it
returns NaN instead of propagating the error, so one malformed float
field cannot abort parsing of a line. -/
theorem safeFloatCast_total (s : String) :
    (∀ x, pyFloatOfString s = .ok x → safeFloatCast s = x)
    ∧ (∀ e, pyFloatOfString s = .error e → safeFloatCast s = .nan) := by
  constructor
  · intro x hx; simp [safeFloatCast, hx]
  · intro e he; simp [safeFloatCast, he]

/-- Witness for C8 at concrete inputs: `"1.5"` parses to 3/2 and the
unparsable `"N/A"` (nvidia-smi's not-available marker) becomes NaN. -/
theorem safeFloatCast_total_witness :
    safeFloatCast "1.5" = .fin (3/2) ∧ safeFloatCast "N/A" = .nan := by
  constructor
  · exact (safeFloatCast_total "1.5").1 (.fin (3/2)) rfl
  · exact (safeFloatCast_total "N/A").2 (.valueError "N/A") rfl

/-- C10: calling `getFirstAvailable` with `attempts = 0` never runs the
loop body (zero selector calls, zero sleeps) and never assigns the local
`available`, so the final `if not available` raises an unbound-local
error rather than returning or raising the documented RuntimeError. -/
theorem getFirstAvailable_zero_attempts (selector : ℕ → List PyFloat)
    (interval : ℕ) :
    getFirstAvailable selector 0 interval
      = ⟨0, 0, .error (.unboundLocal "available")⟩ := rfl

/-- C3: when every attempt finds no GPU and `attempts ≥ 1`, the retry
wrapper calls the selector exactly `attempts` times, sleeps exactly
`attempts - 1` times (between consecutive attempts, never after the
last) and raises the RuntimeError whose message carries the attempt
count and the interval — the only hard failure it surfaces. -/
theorem getFirstAvailable_exhaustion (selector : ℕ → List PyFloat)
    (attempts interval : ℕ) (hat : 1 ≤ attempts)
    (hsel : ∀ i, selector i = []) :
    getFirstAvailable selector attempts interval
      = ⟨attempts, attempts - 1,
         .error (.runtimeError
           ("Could not find an available GPU after " ++ toString attempts
             ++ " attempts with " ++ toString interval
             ++ " seconds interval."))⟩ := by
  have hr := retryLoop_empty selector attempts hsel attempts 0 0 0 none
    (by omega) (by omega)
  simp [getFirstAvailable, hr]

/-- Witness for C3 at `attempts = 3`, `interval = 0` and an
always-empty selector: three calls, two sleeps, then the RuntimeError. -/
theorem getFirstAvailable_exhaustion_witness :
    getFirstAvailable (fun _ => []) 3 0
      = ⟨3, 2, .error (.runtimeError
          ("Could not find an available GPU after 3 attempts with 0"
            ++ " seconds interval."))⟩ := by
  have h := getFirstAvailable_exhaustion (fun _ => []) 3 0 (by decide)
    (fun _ => rfl)
  simpa using h

/-- C4: if the selector first returns a non-empty list on attempt index
`k` (`k < attempts`), the wrapper returns that list at once: exactly
`k + 1` selector calls happen and exactly `k` sleeps — one after each
failed attempt, none after the success. -/
theorem getFirstAvailable_success (selector : ℕ → List PyFloat)
    (attempts interval k : ℕ) (hk : k < attempts)
    (hne : selector k ≠ []) (hprev : ∀ j, j < k → selector j = []) :
    getFirstAvailable selector attempts interval
      = ⟨k + 1, k, .ok (selector k)⟩ := by
  have hr := retryLoop_success selector attempts k hne hprev attempts 0 0 0
    none (by omega) (by omega) hk
  rcases hs : selector k with _ | ⟨x, xs⟩
  · exact absurd hs hne
  · simp [getFirstAvailable, hr, hs]

/-- C2 counterexample: with available GPUs whose ids are [NaN, 5] and
`order="last"`, the NaN id comes LAST (`[5, NaN]`), not first as the
claim states — the code maps NaN to `-inf` and sorts descending, so NaN
lands at the bottom. -/
theorem getAvailable_last_nan_counterexample :
    getAvailable [availGpu .nan "n1", availGpu (.fin 5) "u5"] "last" 2
        (.fin 1) (.fin 1) (.fin 0) false [] [] [] noSample
      = .ok [.fin 5, .nan]
    ∧ ([PyFloat.fin 5, PyFloat.nan] ≠ [PyFloat.nan, PyFloat.fin 5]) := by
  exact ⟨rfl, by decide⟩

/-- C2 (amended): survivors are ordered before truncation as follows —
for FIRST, ascending by id with NaN ids treated as `+inf` (so they sort
last); for LAST, descending by id with NaN ids treated as `-inf`, which
under the descending sort also places NaN ids last (the code flips the
sign of the infinity together with the sort direction).  Stated as: each
sort returns a permutation of the survivors, sorted for the respective
key order; after any NaN id no finite id follows (in either order); and
for three available GPUs with ids [2,0,1], FIRST yields [0,1,2] and LAST
yields [2,1,0]. -/
theorem getAvailable_order_spec (gpus : List GPU) (sample : ℕ → List ℕ) :
    (∃ l, sortGpus "first" sample gpus = .ok l ∧ l.Perm gpus
       ∧ List.Sorted (ascRel sortKeyFirst) l)
    ∧ (∃ l, sortGpus "last" sample gpus = .ok l ∧ l.Perm gpus
       ∧ List.Sorted (descRel sortKeyLast) l)
    ∧ (∀ l, sortGpus "first" sample gpus = .ok l →
        ∀ i j, ∀ hi : i < l.length, ∀ hj : j < l.length, i ≤ j →
          (l.get ⟨i, hi⟩).id.isNan = true →
          ∀ q : ℚ, (l.get ⟨j, hj⟩).id ≠ .fin q)
    ∧ (∀ l, sortGpus "last" sample gpus = .ok l →
        ∀ i j, ∀ hi : i < l.length, ∀ hj : j < l.length, i ≤ j →
          (l.get ⟨i, hi⟩).id.isNan = true →
          ∀ q : ℚ, (l.get ⟨j, hj⟩).id ≠ .fin q)
    ∧ getAvailable ex201 "first" 3 (.fin 1) (.fin 1) (.fin 0) false [] [] []
        sample = .ok [.fin 0, .fin 1, .fin 2]
    ∧ getAvailable ex201 "last" 3 (.fin 1) (.fin 1) (.fin 0) false [] [] []
        sample = .ok [.fin 2, .fin 1, .fin 0] := by
  haveI : IsTotal GPU (ascRel sortKeyFirst) :=
    ⟨ascRel_total _ sortKeyFirst_ne_nan⟩
  haveI : IsTrans GPU (ascRel sortKeyFirst) := ⟨ascRel_trans _⟩
  haveI : IsTotal GPU (descRel sortKeyLast) :=
    ⟨descRel_total _ sortKeyLast_ne_nan⟩
  haveI : IsTrans GPU (descRel sortKeyLast) := ⟨descRel_trans _⟩
  refine ⟨⟨_, sortGpus_first sample gpus, List.perm_insertionSort _ _,
      List.sorted_insertionSort _ _⟩,
    ⟨_, sortGpus_last sample gpus, List.perm_insertionSort _ _,
      List.sorted_insertionSort _ _⟩, ?_, ?_, rfl, rfl⟩
  · intro l hl i j hi hj hij hnan q hq
    have hs : List.Sorted (ascRel sortKeyFirst) l := by
      rw [sortGpus_first sample gpus] at hl
      cases hl
      exact List.sorted_insertionSort _ _
    have hkeyi : sortKeyFirst (l.get ⟨i, hi⟩) = .inf := by
      unfold sortKeyFirst
      rw [if_pos hnan]
    have hkeyj : sortKeyFirst (l.get ⟨j, hj⟩) = .fin q := by
      unfold sortKeyFirst
      rw [hq]
      rfl
    rcases eq_or_lt_of_le hij with heq | hlt
    · subst heq
      rw [hkeyi] at hkeyj
      exact PyFloat.noConfusion hkeyj
    · have hrel := hs.rel_get_of_lt (a := ⟨i, hi⟩) (b := ⟨j, hj⟩) hlt
      rw [show ascRel sortKeyFirst (l.get ⟨i, hi⟩) (l.get ⟨j, hj⟩)
          = (PyFloat.le (sortKeyFirst (l.get ⟨i, hi⟩))
              (sortKeyFirst (l.get ⟨j, hj⟩)) = true) from rfl,
        hkeyi, hkeyj] at hrel
      exact absurd ((PyFloat.le_inf_iff (by simp)).mp hrel)
        (by simp)
  · intro l hl i j hi hj hij hnan q hq
    have hs : List.Sorted (descRel sortKeyLast) l := by
      rw [sortGpus_last sample gpus] at hl
      cases hl
      exact List.sorted_insertionSort _ _
    have hkeyi : sortKeyLast (l.get ⟨i, hi⟩) = .ninf := by
      unfold sortKeyLast
      rw [if_pos hnan]
    have hkeyj : sortKeyLast (l.get ⟨j, hj⟩) = .fin q := by
      unfold sortKeyLast
      rw [hq]
      rfl
    rcases eq_or_lt_of_le hij with heq | hlt
    · subst heq
      rw [hkeyi] at hkeyj
      exact PyFloat.noConfusion hkeyj
    · have hrel := hs.rel_get_of_lt (a := ⟨i, hi⟩) (b := ⟨j, hj⟩) hlt
      rw [show descRel sortKeyLast (l.get ⟨i, hi⟩) (l.get ⟨j, hj⟩)
          = (PyFloat.le (sortKeyLast (l.get ⟨j, hj⟩))
              (sortKeyLast (l.get ⟨i, hi⟩)) = true) from rfl,
        hkeyi, hkeyj] at hrel
      exact absurd ((PyFloat.le_ninf_iff (by simp)).mp hrel)
        (by simp)

/-- Witness for C2 (amended) at a concrete input: sorting GPUs with ids
[NaN, NaN, 5] under LAST yields [5, NaN, NaN] (stable), the element at
index 1 has a NaN id, and the theorem then gives that the id at the
later index 2 is not a finite value. -/
theorem getAvailable_order_spec_witness :
    sortGpus "last" noSample
        [availGpu .nan "n1", availGpu .nan "n2", availGpu (.fin 5) "u5"]
      = .ok [availGpu (.fin 5) "u5", availGpu .nan "n1", availGpu .nan "n2"]
    ∧ ((([availGpu (.fin 5) "u5", availGpu .nan "n1",
          availGpu .nan "n2"] : List GPU).get ⟨1, by decide⟩).id.isNan = true)
    ∧ ((([availGpu (.fin 5) "u5", availGpu .nan "n1",
          availGpu .nan "n2"] : List GPU).get ⟨2, by decide⟩).id ≠ .fin 7) := by
  refine ⟨rfl, rfl, ?_⟩
  exact (getAvailable_order_spec
      [availGpu .nan "n1", availGpu .nan "n2", availGpu (.fin 5) "u5"]
      noSample).2.2.2.1
    [availGpu (.fin 5) "u5", availGpu .nan "n1", availGpu .nan "n2"]
    rfl 1 2 (by decide) (by decide) (by decide) rfl 7

/-- C7: with a positive `limit`, `getAvailable` truncates the ordered
survivor list to at most `limit` entries and returns their ids in that
order; when `limit` is at least the number of survivors it returns all
the survivors' ids; for every non-random order this never fails. -/
theorem getAvailable_truncation (gpus : List GPU) (order : String)
    (limit : ℕ) (maxLoad maxMemory memoryFree : PyFloat) (includeNan : Bool)
    (excludeID : List PyFloat) (excludeUUID excludeComputeMode : List String)
    (sample : ℕ → List ℕ) (_hlim : 0 < limit) :
    (∀ l, sortGpus order sample (availableGpus gpus maxLoad maxMemory
          memoryFree includeNan excludeID excludeUUID excludeComputeMode)
        = .ok l →
      getAvailable gpus order limit maxLoad maxMemory memoryFree includeNan
          excludeID excludeUUID excludeComputeMode sample
        = .ok ((l.take (min limit l.length)).map fun g => g.id)
      ∧ ((l.take (min limit l.length)).map fun g => g.id).length ≤ limit
      ∧ (l.length ≤ limit →
          getAvailable gpus order limit maxLoad maxMemory memoryFree
              includeNan excludeID excludeUUID excludeComputeMode sample
            = .ok (l.map fun g => g.id)))
    ∧ (order ≠ "random" →
        ∃ ids, getAvailable gpus order limit maxLoad maxMemory memoryFree
            includeNan excludeID excludeUUID excludeComputeMode sample
          = .ok ids) := by
  constructor
  · intro l hl
    refine ⟨getAvailable_eq_of_sortGpus hl, ?_, ?_⟩
    · simp only [List.length_map, List.length_take]
      omega
    · intro hlen
      rw [getAvailable_eq_of_sortGpus hl, Nat.min_eq_right hlen,
        List.take_length]
  · intro h
    obtain ⟨l, hl⟩ := sortGpus_ok_of_ne_random order sample _ h
    exact ⟨_, getAvailable_eq_of_sortGpus hl⟩

/-- Witness for C7: `limit = 5` exceeds the three available GPUs of
`ex201`, and all three ids are returned in FIRST order, no error. -/
theorem getAvailable_truncation_witness :
    getAvailable ex201 "first" 5 (.fin 1) (.fin 1) (.fin 0) false [] [] []
        noSample
      = .ok [.fin 0, .fin 1, .fin 2] := by
  have h := ((getAvailable_truncation ex201 "first" 5 (.fin 1) (.fin 1)
      (.fin 0) false [] [] [] noSample (by decide)).1
    [availGpu (.fin 0) "u0", availGpu (.fin 1) "u1", availGpu (.fin 2) "u2"]
    rfl).2.2 (by decide)
  simpa using h

/-- C5 counterexample: malformed stdout is parsed OUTSIDE the
try/except of `getGPUs` (the try covers only the subprocess invocation),
so a garbage line raises a ValueError from `int(vals[0])` rather than
producing the empty list the claim promises. -/
theorem getGPUs_malformed_counterexample :
    getGPUs (some "garbage\n") = .error (.valueError "garbage")
    ∧ Except.error (PyErr.valueError "garbage")
        ≠ (.ok ([] : List GPU)) := by
  refine ⟨rfl, fun h => Except.noConfusion h⟩

/-- C5 (amended): `getGPUs` returns an empty list when the telemetry
invocation itself fails (the bare except around `subprocess.run`) and
when stdout is empty; but malformed output is parsed outside the try,
so a parse error on a garbage line propagates to the caller instead of
yielding an empty list. -/
theorem getGPUs_error_policy :
    getGPUs none = .ok []
    ∧ getGPUs (some "") = .ok []
    ∧ getGPUs (some "garbage\n") = .error (.valueError "garbage") :=
  ⟨rfl, rfl, rfl⟩

/-- C6: `memoryUtil` is computed at construction: every successfully
constructed record satisfies `memoryUtil = float(memoryUsed) /
float(memoryTotal)` and stores the memory fields unchanged; every record
produced by parsing a line satisfies the invariant
`memoryUtil = memoryUsed / memoryTotal` exactly; and when `memoryTotal`
is zero the value is undefined — construction raises `ZeroDivisionError`
for the caller to handle, and no record exists. -/
theorem gpu_memoryUtil_invariant :
    (∀ (ID : PyFloat) (uuid : String) (load : PyFloat)
        (memoryTotal memoryUsed memoryFree : PyFloat)
        (driver gpu_name serial display_mode display_active : String)
        (temp_gpu : PyFloat) (core_clock memory_clock : Int)
        (vbios_version : String) (power_draw power_limit : PyFloat)
        (compute_mode : String) (pci_bus : Int) (g : GPU),
      GPU.init ID uuid load memoryTotal memoryUsed memoryFree driver
          gpu_name serial display_mode display_active temp_gpu core_clock
          memory_clock vbios_version power_draw power_limit compute_mode
          pci_bus = .ok g →
        PyFloat.div memoryUsed memoryTotal = .ok g.memoryUtil
        ∧ g.memoryTotal = memoryTotal ∧ g.memoryUsed = memoryUsed)
    ∧ (∀ (line : String) (g : GPU), parseGpuLine line = .ok g →
        PyFloat.div g.memoryUsed g.memoryTotal = .ok g.memoryUtil)
    ∧ (∀ (ID : PyFloat) (uuid : String) (load : PyFloat)
        (memoryUsed memoryFree : PyFloat)
        (driver gpu_name serial display_mode display_active : String)
        (temp_gpu : PyFloat) (core_clock memory_clock : Int)
        (vbios_version : String) (power_draw power_limit : PyFloat)
        (compute_mode : String) (pci_bus : Int),
      GPU.init ID uuid load (.fin 0) memoryUsed memoryFree driver
          gpu_name serial display_mode display_active temp_gpu core_clock
          memory_clock vbios_version power_draw power_limit compute_mode
          pci_bus = .error .zeroDivisionError) := by
  refine ⟨?_, ?_, ?_⟩
  · intro ID uuid load memoryTotal memoryUsed memoryFree driver gpu_name
      serial display_mode display_active temp_gpu core_clock memory_clock
      vbios_version power_draw power_limit compute_mode pci_bus g h
    exact GPU.init_ok h
  · intro line g h
    simp only [parseGpuLine, except_bind_ok] at h
    obtain ⟨v0, -, h⟩ := h
    obtain ⟨v1, -, h⟩ := h
    obtain ⟨v2, -, h⟩ := h
    obtain ⟨v3, -, h⟩ := h
    obtain ⟨v4, -, h⟩ := h
    obtain ⟨v5, -, h⟩ := h
    obtain ⟨v6, -, h⟩ := h
    obtain ⟨v7, -, h⟩ := h
    obtain ⟨v8, -, h⟩ := h
    obtain ⟨v9, -, h⟩ := h
    obtain ⟨v10, -, h⟩ := h
    obtain ⟨v11, -, h⟩ := h
    obtain ⟨v12, -, h⟩ := h
    obtain ⟨v13, -, h⟩ := h
    obtain ⟨v14, -, h⟩ := h
    obtain ⟨v15, -, h⟩ := h
    obtain ⟨v16, -, h⟩ := h
    obtain ⟨v17, -, h⟩ := h
    obtain ⟨v18, -, h⟩ := h
    obtain ⟨v19, -, h⟩ := h
    obtain ⟨v20, -, h⟩ := h
    obtain ⟨v21, -, h⟩ := h
    obtain ⟨v22, -, h⟩ := h
    obtain ⟨v23, -, h⟩ := h
    obtain ⟨hdiv, htot, hused⟩ := GPU.init_ok h
    rw [htot, hused]
    exact hdiv
  · intro ID uuid load memoryUsed memoryFree driver gpu_name serial
      display_mode display_active temp_gpu core_clock memory_clock
      vbios_version power_draw power_limit compute_mode pci_bus
    unfold GPU.init
    rw [div_fin_zero]
    rfl

/-- Witness for C6: parsing the concrete well-formed line yields a
record whose `memoryUtil` is exactly `2000 / 8000 = 1/4`. -/
theorem gpu_memoryUtil_invariant_witness :
    parseGpuLine wellFormedLine = .ok parsedGpu
    ∧ PyFloat.div parsedGpu.memoryUsed parsedGpu.memoryTotal
        = .ok parsedGpu.memoryUtil := by
  refine ⟨rfl, ?_⟩
  exact gpu_memoryUtil_invariant.2.1 wellFormedLine parsedGpu rfl

/-- C9 (evaluating the code at the failing input): with an empty
uuid→id map, building a process record whose gpu uuid is unresolved
raises `KeyError` and aborts the whole batch — the dict is subscripted
directly, so the subsequent `if gpuId is None` default-to-(-1) branch is
dead code. -/
theorem getGPUProcesses_missing_uuid_raises :
    getGPUProcesses [] (some "123, python, GPU-xyz, somegpu, 100\n")
        (fun _ => none)
      = .error (.keyError "GPU-xyz") := rfl

/-- Witness for C4: a selector that succeeds on the second attempt
(index 1) of three: two calls, one sleep, immediate result. -/
theorem getFirstAvailable_success_witness :
    getFirstAvailable (fun i => if i = 1 then [.fin 4] else []) 3 7
      = ⟨2, 1, .ok [.fin 4]⟩ := by
  have h := getFirstAvailable_success (fun i => if i = 1 then [.fin 4] else [])
    3 7 1 (by decide) (by decide) ?_
  · simpa using h
  · intro j hj
    interval_cases j
    rfl

end GPUtil
